import Mathlib

/-!
Shallow embedding of `src/pp/main.py` (FastAPI product-sheet generator).

Modelling conventions:
* Python `Optional[str]` fields become `Option String`; Python truthiness
  (`None` and `""` are falsy) is `pyTruthy`.
* The Google-translate call can raise; it is modelled as an oracle
  `String → Option String` where `none` stands for a raised exception.
* `uuid.uuid4()` is an external fresh-identifier source; it is modelled as a
  deterministic injective supply `uuid4` indexed by how many identifiers the
  process has drawn so far (`AppState.next_uuid`).
* Timestamps (`datetime.now()`) are an input `now : String`.
* `float` prices never participate in arithmetic here; a price is modelled by
  its rendered decimal string (`Option String`), absent when the Python value
  is falsy (`None`, and also `0.0`, which `or` treats as falsy).
* `requests.post` is an oracle `PostRequest → Except String HttpResponse`
  (`Except.error` = raised exception, carrying its text). The embedding of
  `create_product_in_prestashop` additionally returns the list of network
  requests it attempted, so that fail-fast and single-attempt behaviour are
  visible in the model.
-/

/-- Python truthiness of an `Optional[str]`: `None` and `""` are falsy. -/
def pyTruthy (o : Option String) : Bool := !(o.getD "").isEmpty

/-- Python truthiness of an `Optional[List[str]]`: `None` and `[]` are falsy. -/
def pyTruthyList (o : Option (List String)) : Bool := !(o.getD []).isEmpty

/-- Python `x or None` on an optional string (lines 309-317 of main.py). -/
def orNone (o : Option String) : Option String := if pyTruthy o then o else none

/-- Python `x or None` on an optional list of strings. -/
def orNoneList (o : Option (List String)) : Option (List String) :=
  if pyTruthyList o then o else none

/-- Embedding of Python `str.endswith`: the characters of `suf` are a suffix
of the characters of `s`. -/
def pyEndsWith (s suf : String) : Bool := suf.data.isSuffixOf s.data

/-- Embedding of Python `str.lower`: lower-case character by character. -/
def pyLower (s : String) : String := String.mk (s.data.map Char.toLower)

/-- Payload of `POST /api/search` (class `SearchRequest`, lines 49-57). -/
structure SearchRequest where
  ean : Option String := none
  sku : Option String := none
deriving DecidableEq

/-- A stored product (class `Product`, lines 60-78). -/
structure Product where
  id : String
  ean : Option String := none
  sku : Option String := none
  name : String
  brand : Option String := none
  category : Option String := none
  price : Option String := none
  original_price : Option String := none
  description : String
  features : Option (List String) := none
  image : Option String := none
  material : Option String := none
  type : Option String := none
  search_type : String
  search_term : String
  created_at : String
deriving DecidableEq

/-- `Product.to_prestashop_row` (lines 80-96): the ordered dict of CSV
columns; Python 3.7+ dicts preserve insertion order, so a list of pairs. -/
def Product.to_prestashop_row (p : Product) : List (String × String) :=
  [("Name", p.name),
   ("Price", p.price.getD ""),
   ("Description", p.description),
   ("Reference", p.sku.getD ""),
   ("EAN", p.ean.getD ""),
   ("Category", p.category.getD ""),
   ("ImageURL", p.image.getD ""),
   ("Brand", p.brand.getD "")]

/-- The in-memory store (class `ProductDatabase`, lines 99-119). -/
structure ProductDatabase where
  _products : List Product := []
deriving DecidableEq

/-- `ProductDatabase.add` (lines 109-110): append. -/
def ProductDatabase.add (db : ProductDatabase) (product : Product) : ProductDatabase :=
  ⟨db._products ++ [product]⟩

/-- `ProductDatabase.get_all` (lines 112-113): snapshot copy, insertion order. -/
def ProductDatabase.get_all (db : ProductDatabase) : List Product :=
  db._products

/-- `ProductDatabase.get_by_id` (lines 115-119): linear scan, first match. -/
def ProductDatabase.get_by_id (db : ProductDatabase) (product_id : String) : Option Product :=
  db._products.find? (fun prod => prod.id == product_id)

/-- The loosely-typed bag of fields a lookup may return (main.py represents
it as `Dict[str, Any]`; `.get` of a missing key is `None`). -/
structure LookupData where
  name : Option String := none
  brand : Option String := none
  category : Option String := none
  price : Option String := none
  original_price : Option String := none
  description : Option String := none
  features : Option (List String) := none
  image : Option String := none
  material : Option String := none
  type : Option String := none
deriving DecidableEq

/-- `lookup_product_by_ean` (lines 129-140): stub, returns `{}`. -/
def lookup_product_by_ean (_ean : String) : LookupData := {}

/-- `lookup_product_by_sku` (lines 143-150): stub, returns `{}`. -/
def lookup_product_by_sku (_sku : String) : LookupData := {}

/-- `perform_product_lookup` (lines 259-273), parameterised by the two lookup
functions it dispatches between so that which of them is consulted is
observable in the model. -/
def perform_product_lookup (eanFn skuFn : String → LookupData)
    (search_req : SearchRequest) : LookupData :=
  if pyTruthy search_req.ean then eanFn (search_req.ean.getD "")
  else if pyTruthy search_req.sku then skuFn (search_req.sku.getD "")
  else {}

/-- Lines 194-195: append a final period unless the text already ends in one. -/
def ensure_dot (description : String) : String :=
  if pyEndsWith description "." then description else description ++ "."

/-- `generate_french_description` (lines 153-196). `tr` is the translation
oracle (`none` = the translator raised). The Python `for` loop over features
is a left fold; `" ".join` is `String.intercalate " "`. -/
def generate_french_description (tr : String → Option String) (name : String)
    (brand category : Option String) (features : Option (List String))
    (english_desc : Option String) : String :=
  let parts : List String := []
  let parts :=
    if !name.isEmpty then
      if pyTruthy brand then
        parts ++ ["Découvrez " ++ name ++ " de la marque " ++ brand.getD "" ++ "."]
      else
        parts ++ ["Découvrez " ++ name ++ "."]
    else parts
  let parts :=
    if pyTruthy category then
      parts ++ ["Il s'agit d'un(e) " ++ pyLower (category.getD "") ++ "."]
    else parts
  let parts :=
    if pyTruthyList features then
      let features_fr :=
        (features.getD []).foldl (fun acc feat => acc ++ [(tr feat).getD feat]) []
      parts ++ ["Caractéristiques principales : " ++ String.intercalate "; " features_fr ++ "."]
    else parts
  let parts :=
    if pyTruthy english_desc then
      let ed := english_desc.getD ""
      parts ++ [(tr ed).getD ed]
    else parts
  let description := String.intercalate " " parts
  ensure_dot description

/-- HTTP error raised by a handler (`fastapi.HTTPException`). -/
structure HTTPError where
  status_code : Nat
  detail : String
deriving DecidableEq

/-- Model of `str(uuid.uuid4())` (line 323): an injective fresh-identifier
supply, indexed by how many identifiers the process has drawn so far. -/
def uuid4 (n : Nat) : String := String.mk (List.replicate (n + 1) 'u')

/-- Mutable process state: the identifier supply and the module-level
`products_db` (line 122). -/
structure AppState where
  next_uuid : Nat := 0
  products_db : ProductDatabase := {}
deriving DecidableEq

/-- Lines 300-341 of `search_product`: field normalisation, description
generation and construction of the `Product` record, for a payload that
passed validation. `next_uuid` feeds the `uuid4` supply, `now` is the
`datetime.now().isoformat(timespec="seconds")` string. -/
def build_product (eanFn skuFn : String → LookupData) (tr : String → Option String)
    (now : String) (payload : SearchRequest) (next_uuid : Nat) : Product :=
  let lookup_data := perform_product_lookup eanFn skuFn payload
  let search_term :=
    if pyTruthy payload.ean then payload.ean.getD ""
    else if pyTruthy payload.sku then payload.sku.getD ""
    else ""
  let search_type := if pyTruthy payload.ean then "EAN" else "SKU"
  let name :=
    if pyTruthy lookup_data.name then lookup_data.name.getD ""
    else if !search_term.isEmpty then "Produit " ++ search_type ++ " " ++ search_term
    else "Produit inconnu"
  let brand := orNone lookup_data.brand
  let category := orNone lookup_data.category
  let price := orNone lookup_data.price
  let original_price := orNone lookup_data.original_price
  let english_desc := orNone lookup_data.description
  let features := orNoneList lookup_data.features
  let image := orNone lookup_data.image
  let material := orNone lookup_data.material
  let prod_type := orNone lookup_data.type
  let description_fr := generate_french_description tr name brand category features english_desc
  { id := uuid4 next_uuid
    ean := payload.ean
    sku := payload.sku
    name := name
    brand := brand
    category := category
    price := price
    original_price := original_price
    description := description_fr
    features := features
    image := image
    material := material
    type := prod_type
    search_type := search_type
    search_term := search_term
    created_at := now }

/-- `search_product` (`POST /api/search`, lines 288-346): validate, look up,
build the product, append it to the store, return it. On validation failure
the state is returned unchanged together with the 400 error. -/
def search_product (eanFn skuFn : String → LookupData) (tr : String → Option String)
    (now : String) (payload : SearchRequest) (s : AppState) :
    Except HTTPError Product × AppState :=
  if !pyTruthy payload.ean && !pyTruthy payload.sku then
    (Except.error ⟨400, "Veuillez fournir un code EAN ou une référence SKU."⟩, s)
  else
    let product := build_product eanFn skuFn tr now payload s.next_uuid
    (Except.ok product,
     { next_uuid := s.next_uuid + 1, products_db := s.products_db.add product })

/-- One call to the search endpoint, as seen from the store: a payload plus
that request's timestamp. -/
structure SearchCall where
  payload : SearchRequest
  now : String
deriving DecidableEq

/-- A sequence of `POST /api/search` requests threaded through the state,
collecting the successfully created products in request order. -/
def run_searches (eanFn skuFn : String → LookupData) (tr : String → Option String) :
    List SearchCall → AppState → AppState × List Product
  | [], s => (s, [])
  | c :: rest, s =>
    match search_product eanFn skuFn tr c.now c.payload s with
    | (Except.ok p, s') =>
      let r := run_searches eanFn skuFn tr rest s'
      (r.1, p :: r.2)
    | (Except.error _, s') => run_searches eanFn skuFn tr rest s'

/-- A CSV field needs quoting (Python `csv` `QUOTE_MINIMAL`) when it contains
the delimiter `;`, the quote char, or a line-terminator character. -/
def csvNeedsQuote (s : String) : Bool :=
  s.data.any (fun c => c == ';' || c == '"' || c == '\r' || c == '\n')

/-- One serialized CSV field: quoted with doubled quote chars when needed. -/
def csvField (s : String) : String :=
  if csvNeedsQuote s then "\"" ++ s.replace "\"" "\"\"" ++ "\"" else s

/-- One CSV line as `csv.writer(delimiter=';')` emits it (default
line terminator `\r\n`). -/
def csvLine (fields : List String) : String :=
  String.intercalate ";" (fields.map csvField) ++ "\r\n"

/-- A downloadable file response (`fastapi.Response` with the
`Content-Disposition` header, lines 372-376). -/
structure FileResponse where
  content : String
  media_type : String
  content_disposition : String
deriving DecidableEq

/-- `export_prestashop_csv` (`GET /api/export/{product_id}`, lines 355-376):
look up, 404 when absent, else header line plus the single product row. -/
def export_prestashop_csv (s : AppState) (product_id : String) :
    Except HTTPError FileResponse :=
  match s.products_db.get_by_id product_id with
  | none => Except.error ⟨404, "Produit non trouvé"⟩
  | some product =>
    let row := product.to_prestashop_row
    let csv_data := csvLine (row.map (fun f => f.1)) ++ csvLine (row.map (fun f => f.2))
    Except.ok
      { content := csv_data
        media_type := "text/csv"
        content_disposition := "attachment; filename=fiche_" ++ product.id ++ ".csv" }

/-- The two PrestaShop configuration values (lines 39-40), read from the
environment; an unset variable is `none`. -/
structure PrestaConfig where
  PRESTASHOP_BASE_URL : Option String := none
  PRESTASHOP_API_KEY : Option String := none
deriving DecidableEq

/-- A `requests.post` response (only the fields the code reads). -/
structure HttpResponse where
  status_code : Nat
  text : String
deriving DecidableEq

/-- The observable content of the one network request the code can make:
URL, XML body, and the auth user (the API key). -/
structure PostRequest where
  url : String
  body : String
  auth_user : String
deriving DecidableEq

/-- The errors `create_product_in_prestashop` can raise: the configuration
`RuntimeError` (lines 211-214) or an `HTTPException` (lines 253-256). -/
inductive PsError where
  | runtimeError (msg : String)
  | httpException (status_code : Nat) (detail : String)
deriving DecidableEq

/-- The XML payload built at lines 219-242 (after `.strip()`). -/
def product_xml (product : Product) : String :=
  "<prestashop xmlns:xlink=\"http://www.w3.org/1999/xlink\">\n" ++
  "      <product>\n" ++
  "        <active>1</active>\n" ++
  "        <name>\n" ++
  "          <language id=\"1\">" ++ product.name ++ "</language>\n" ++
  "        </name>\n" ++
  "        <price>" ++ product.price.getD "0" ++ "</price>\n" ++
  "        <reference>" ++ product.sku.getD "" ++ "</reference>\n" ++
  "        <ean13>" ++ product.ean.getD "" ++ "</ean13>\n" ++
  "        <description>\n" ++
  "          <language id=\"1\">" ++ product.description ++ "</language>\n" ++
  "        </description>\n" ++
  "        <id_category_default>2</id_category_default>\n" ++
  "        <associations>\n" ++
  "          <categories>\n" ++
  "            <category>\n" ++
  "              <id>2</id>\n" ++
  "            </category>\n" ++
  "          </categories>\n" ++
  "        </associations>\n" ++
  "      </product>\n" ++
  "    </prestashop>"

/-- `create_product_in_prestashop` (lines 199-256). `post` is the network
oracle (`Except.error` = raised exception). The second component is the list
of network requests attempted, making "no call before the configuration
check" and "exactly one attempt" observable. -/
def create_product_in_prestashop (cfg : PrestaConfig)
    (post : PostRequest → Except String HttpResponse) (product : Product) :
    Except PsError Unit × List PostRequest :=
  if !pyTruthy cfg.PRESTASHOP_BASE_URL || !pyTruthy cfg.PRESTASHOP_API_KEY then
    (Except.error (.runtimeError
      "PRESTASHOP_BASE_URL et PRESTASHOP_API_KEY doivent être définis pour créer un produit dans PrestaShop."), [])
  else
    let url := cfg.PRESTASHOP_BASE_URL.getD "" ++ "/api/products"
    let req : PostRequest := ⟨url, product_xml product, cfg.PRESTASHOP_API_KEY.getD ""⟩
    match post req with
    | .error exc =>
      (Except.error (.httpException 500 ("Erreur lors de l'appel à PrestaShop : " ++ exc)), [req])
    | .ok response =>
      if response.status_code == 200 || response.status_code == 201 then
        (Except.ok (), [req])
      else
        (Except.error (.httpException response.status_code
          ("Erreur API PrestaShop: " ++ response.text)), [req])

/-- All identifiers of stored products were drawn from the `uuid4` supply at
indices below the next index. Holds for the initial state and is preserved by
every request (`IdsBelow_init`, `IdsBelow_search`). -/
def IdsBelow (s : AppState) : Prop :=
  ∀ p ∈ s.products_db._products, ∃ k, k < s.next_uuid ∧ p.id = uuid4 k

/-- The description algorithm as §4.2 of the spec words it, with the opening
sentence present only when the name is non-empty: an opening sentence from
name and brand (brand form when brand is given, else the name-only form),
then a category-classifying sentence when category is given, then the
features sentence (each feature translated, falling back to the untranslated
feature, joined with "; " behind the fixed label) when features are given,
then the translated-or-original English description when given; all joined
with single spaces, and a final period appended exactly when the text does
not already end with one. -/
def spec_description (tr : String → Option String) (name : String)
    (brand category : Option String) (features : Option (List String))
    (english_desc : Option String) : String :=
  let opening : List String :=
    if name.isEmpty then []
    else if pyTruthy brand then
      ["Découvrez " ++ name ++ " de la marque " ++ brand.getD "" ++ "."]
    else ["Découvrez " ++ name ++ "."]
  let categorySentence : List String :=
    if pyTruthy category then ["Il s'agit d'un(e) " ++ pyLower (category.getD "") ++ "."]
    else []
  let featuresSentence : List String :=
    if pyTruthyList features then
      ["Caractéristiques principales : "
        ++ String.intercalate "; " ((features.getD []).map (fun f => (tr f).getD f)) ++ "."]
    else []
  let englishSentence : List String :=
    if pyTruthy english_desc then
      [(tr (english_desc.getD "")).getD (english_desc.getD "")]
    else []
  let text := String.intercalate " "
    (opening ++ categorySentence ++ featuresSentence ++ englishSentence)
  if pyEndsWith text "." then text else text ++ "."

/-- A concrete full configuration, for instantiating theorems. -/
def cfg_sample : PrestaConfig :=
  { PRESTASHOP_BASE_URL := some "http://shop.example", PRESTASHOP_API_KEY := some "KEY" }

/-- A concrete network oracle whose remote always answers 404. -/
def post404 : PostRequest → Except String HttpResponse :=
  fun _ => Except.ok ⟨404, "Not Found"⟩

/-- A concrete product used to instantiate theorems on concrete inputs. -/
def sample_product : Product :=
  { id := uuid4 0
    sku := some "REF-1"
    name := "Stylo"
    description := "Découvrez Stylo."
    search_type := "SKU"
    search_term := "REF-1"
    created_at := "2024-01-01T00:00:00" }

/-! ## General lemmas -/

/-- Pushing elements one by one onto an accumulator is `map`. -/
theorem foldl_push_eq_map {α β : Type} (g : α → β) (l : List α) :
    ∀ acc : List β, l.foldl (fun acc x => acc ++ [g x]) acc = acc ++ l.map g := by
  induction l with
  | nil => intro acc; simp
  | cons x xs ih => intro acc; simp [ih]

theorem uuid4_injective : Function.Injective uuid4 := by
  intro k n h
  have h2 : List.replicate (k + 1) 'u' = List.replicate (n + 1) 'u' :=
    congrArg String.data h
  have h3 := congrArg List.length h2
  simpa using h3

theorem ensure_dot_endsWith (d : String) : pyEndsWith (ensure_dot d) "." = true := by
  unfold ensure_dot
  cases h : pyEndsWith d "."
  · rw [if_neg (by simp)]
    unfold pyEndsWith
    rw [String.data_append]
    simp [List.isSuffixOf]
  · rw [if_pos rfl]
    exact h

theorem ensure_dot_ne_empty (d : String) : ensure_dot d ≠ "" := by
  unfold ensure_dot
  cases h : pyEndsWith d "."
  · rw [if_neg (by simp)]
    intro he
    have : (d ++ ".").data = [] := by rw [he]
    rw [String.data_append] at this
    simp at this
  · rw [if_pos rfl]
    intro he
    subst he
    unfold pyEndsWith at h
    simp [List.isSuffixOf] at h

theorem generate_endsWith (tr : String → Option String) (name : String)
    (brand category : Option String) (features : Option (List String))
    (english_desc : Option String) :
    pyEndsWith (generate_french_description tr name brand category features english_desc) "."
      = true :=
  ensure_dot_endsWith _

theorem generate_ne_empty (tr : String → Option String) (name : String)
    (brand category : Option String) (features : Option (List String))
    (english_desc : Option String) :
    generate_french_description tr name brand category features english_desc ≠ "" :=
  ensure_dot_ne_empty _

theorem IdsBelow_init : IdsBelow {} := by
  intro p hp
  exact absurd hp (List.not_mem_nil p)

theorem IdsBelow_search (eanFn skuFn : String → LookupData) (tr : String → Option String)
    (now : String) (payload : SearchRequest) (s : AppState) (h : IdsBelow s) :
    IdsBelow (search_product eanFn skuFn tr now payload s).2 := by
  unfold search_product
  cases hc : !pyTruthy payload.ean && !pyTruthy payload.sku
  · rw [if_neg (by simp)]
    intro p hp
    rcases List.mem_append.1 hp with hmem | hmem
    · rcases h p hmem with ⟨k, hk, hid⟩
      exact ⟨k, Nat.lt_succ_of_lt hk, hid⟩
    · rcases List.mem_singleton.1 hmem with rfl
      exact ⟨s.next_uuid, Nat.lt_succ_self _, rfl⟩
  · rw [if_pos rfl]
    exact h

/-- A validated payload takes the success path of `search_product`. -/
theorem search_product_valid_eq (eanFn skuFn : String → LookupData)
    (tr : String → Option String) (now : String) (payload : SearchRequest) (s : AppState)
    (h : (!pyTruthy payload.ean && !pyTruthy payload.sku) = false) :
    search_product eanFn skuFn tr now payload s
      = (Except.ok (build_product eanFn skuFn tr now payload s.next_uuid),
         { next_uuid := s.next_uuid + 1,
           products_db := s.products_db.add (build_product eanFn skuFn tr now payload s.next_uuid) }) := by
  unfold search_product
  rw [h]
  rw [if_neg (by simp)]

/-- Running a batch of valid search calls appends exactly the created
products, in order, to the store. -/
theorem run_searches_spec (eanFn skuFn : String → LookupData) (tr : String → Option String) :
    ∀ (calls : List SearchCall) (s : AppState),
    (∀ c ∈ calls, pyTruthy c.payload.ean = true ∨ pyTruthy c.payload.sku = true) →
    (run_searches eanFn skuFn tr calls s).1.products_db._products
        = s.products_db._products ++ (run_searches eanFn skuFn tr calls s).2
      ∧ (run_searches eanFn skuFn tr calls s).2.length = calls.length := by
  intro calls
  induction calls with
  | nil =>
    intro s _
    simp [run_searches]
  | cons c rest ih =>
    intro s h
    have hc := h c (List.mem_cons_self c rest)
    have hcond : (!pyTruthy c.payload.ean && !pyTruthy c.payload.sku) = false := by
      rcases hc with h1 | h1 <;> simp [h1]
    have hrest := ih
      { next_uuid := s.next_uuid + 1,
        products_db := s.products_db.add (build_product eanFn skuFn tr c.now c.payload s.next_uuid) }
      (fun d hd => h d (List.mem_cons_of_mem c hd))
    simp only [run_searches, search_product_valid_eq eanFn skuFn tr c.now c.payload s hcond]
    constructor
    · rw [hrest.1]
      simp [ProductDatabase.add]
    · simp [hrest.2]

/-- With both configuration values truthy, `create_product_in_prestashop`
is the dispatch on the single network call's outcome. -/
theorem create_product_cfg_ok (cfg : PrestaConfig)
    (post : PostRequest → Except String HttpResponse) (product : Product)
    (h : (!pyTruthy cfg.PRESTASHOP_BASE_URL || !pyTruthy cfg.PRESTASHOP_API_KEY) = false) :
    create_product_in_prestashop cfg post product
      = (match post ⟨cfg.PRESTASHOP_BASE_URL.getD "" ++ "/api/products", product_xml product,
            cfg.PRESTASHOP_API_KEY.getD ""⟩ with
        | .error exc =>
          (Except.error (.httpException 500 ("Erreur lors de l'appel à PrestaShop : " ++ exc)),
           [⟨cfg.PRESTASHOP_BASE_URL.getD "" ++ "/api/products", product_xml product,
             cfg.PRESTASHOP_API_KEY.getD ""⟩])
        | .ok response =>
          if response.status_code == 200 || response.status_code == 201 then
            (Except.ok (), [⟨cfg.PRESTASHOP_BASE_URL.getD "" ++ "/api/products",
              product_xml product, cfg.PRESTASHOP_API_KEY.getD ""⟩])
          else
            (Except.error (.httpException response.status_code
              ("Erreur API PrestaShop: " ++ response.text)),
             [⟨cfg.PRESTASHOP_BASE_URL.getD "" ++ "/api/products", product_xml product,
               cfg.PRESTASHOP_API_KEY.getD ""⟩])) := by
  unfold create_product_in_prestashop
  rw [h]
  rw [if_neg (by simp)]

/-- Configuration present, network raised: a 500 carrying the cause. -/
theorem create_product_cfg_error (cfg : PrestaConfig)
    (post : PostRequest → Except String HttpResponse) (product : Product)
    (h : (!pyTruthy cfg.PRESTASHOP_BASE_URL || !pyTruthy cfg.PRESTASHOP_API_KEY) = false)
    (exc : String)
    (hpost : post ⟨cfg.PRESTASHOP_BASE_URL.getD "" ++ "/api/products", product_xml product,
        cfg.PRESTASHOP_API_KEY.getD ""⟩ = Except.error exc) :
    create_product_in_prestashop cfg post product
      = (Except.error (.httpException 500 ("Erreur lors de l'appel à PrestaShop : " ++ exc)),
         [⟨cfg.PRESTASHOP_BASE_URL.getD "" ++ "/api/products", product_xml product,
           cfg.PRESTASHOP_API_KEY.getD ""⟩]) := by
  rw [create_product_cfg_ok cfg post product h, hpost]

/-- Configuration present, network answered: dispatch on the status code. -/
theorem create_product_cfg_status (cfg : PrestaConfig)
    (post : PostRequest → Except String HttpResponse) (product : Product)
    (h : (!pyTruthy cfg.PRESTASHOP_BASE_URL || !pyTruthy cfg.PRESTASHOP_API_KEY) = false)
    (r : HttpResponse)
    (hpost : post ⟨cfg.PRESTASHOP_BASE_URL.getD "" ++ "/api/products", product_xml product,
        cfg.PRESTASHOP_API_KEY.getD ""⟩ = Except.ok r) :
    create_product_in_prestashop cfg post product
      = (if r.status_code == 200 || r.status_code == 201 then
          (Except.ok (), [⟨cfg.PRESTASHOP_BASE_URL.getD "" ++ "/api/products",
            product_xml product, cfg.PRESTASHOP_API_KEY.getD ""⟩])
        else
          (Except.error (.httpException r.status_code
            ("Erreur API PrestaShop: " ++ r.text)),
           [⟨cfg.PRESTASHOP_BASE_URL.getD "" ++ "/api/products", product_xml product,
             cfg.PRESTASHOP_API_KEY.getD ""⟩])) := by
  rw [create_product_cfg_ok cfg post product h, hpost]

/-! ## Claims -/

/-- Claim C1: every successful `POST /api/search` (at least one of ean/sku
truthy) returns and stores a product whose description is non-empty and ends
with ".", whose freshly drawn identifier differs from the identifier of every
product already in the store (given that those were drawn earlier from the
supply), and whose `search_type` is `"EAN"` whenever `ean` is supplied — even
if `sku` is supplied too — and `"SKU"` when only `sku` is supplied. -/
theorem claim_C1 (eanFn skuFn : String → LookupData) (tr : String → Option String)
    (now : String) (payload : SearchRequest) (s : AppState)
    (hvalid : pyTruthy payload.ean = true ∨ pyTruthy payload.sku = true)
    (hinv : IdsBelow s) :
    ∃ p s', search_product eanFn skuFn tr now payload s = (Except.ok p, s') ∧
      p.description ≠ "" ∧
      pyEndsWith p.description "." = true ∧
      (∀ q ∈ s.products_db.get_all, q.id ≠ p.id) ∧
      (pyTruthy payload.ean = true → p.search_type = "EAN") ∧
      (pyTruthy payload.ean = false → p.search_type = "SKU") ∧
      s'.products_db.get_all = s.products_db.get_all ++ [p] := by
  have hcond : (!pyTruthy payload.ean && !pyTruthy payload.sku) = false := by
    rcases hvalid with h | h <;> simp [h]
  refine ⟨build_product eanFn skuFn tr now payload s.next_uuid,
    { next_uuid := s.next_uuid + 1,
      products_db := s.products_db.add (build_product eanFn skuFn tr now payload s.next_uuid) },
    ?_, ?_, ?_, ?_, ?_, ?_, ?_⟩
  · unfold search_product
    rw [hcond]
    rw [if_neg (by simp)]
  · exact generate_ne_empty _ _ _ _ _ _
  · exact generate_endsWith _ _ _ _ _ _
  · intro q hq
    rcases hinv q hq with ⟨k, hk, hid⟩
    rw [hid]
    show uuid4 k ≠ uuid4 s.next_uuid
    intro he
    exact absurd (uuid4_injective he) (Nat.ne_of_lt hk)
  · intro he
    simp [build_product, he]
  · intro he
    simp [build_product, he]
  · rfl

/-- Witness for C1: a concrete successful search against the empty store. -/
theorem claim_C1_witness :
    ∃ p s', search_product (fun _ => {}) (fun _ => {}) (fun t => some t)
        "2024-01-01T00:00:00" { ean := some "3017620422003", sku := none } {}
        = (Except.ok p, s') ∧
      p.description ≠ "" ∧
      pyEndsWith p.description "." = true ∧
      (∀ q ∈ (({} : AppState)).products_db.get_all, q.id ≠ p.id) ∧
      (pyTruthy (some "3017620422003") = true → p.search_type = "EAN") ∧
      (pyTruthy (some "3017620422003") = false → p.search_type = "SKU") ∧
      s'.products_db.get_all = (({} : AppState)).products_db.get_all ++ [p] :=
  claim_C1 (fun _ => {}) (fun _ => {}) (fun t => some t) "2024-01-01T00:00:00"
    { ean := some "3017620422003", sku := none } {} (Or.inl (by decide)) IdsBelow_init

/-- Claim C2: a `POST /api/search` whose payload has neither a truthy `ean`
nor a truthy `sku` (absent or empty) fails with HTTP 400 and leaves the
store — indeed, the whole state — unchanged. -/
theorem claim_C2 (eanFn skuFn : String → LookupData) (tr : String → Option String)
    (now : String) (payload : SearchRequest) (s : AppState)
    (hean : pyTruthy payload.ean = false) (hsku : pyTruthy payload.sku = false) :
    search_product eanFn skuFn tr now payload s
      = (Except.error ⟨400, "Veuillez fournir un code EAN ou une référence SKU."⟩, s) := by
  unfold search_product
  rw [if_pos (by simp [hean, hsku])]

/-- Witness for C2: an empty-string EAN and an absent SKU are rejected with a
400 and the (one-product) store is untouched. -/
theorem claim_C2_witness :
    search_product (fun _ => {}) (fun _ => {}) (fun t => some t) "2024-01-01T00:00:00"
        { ean := some "", sku := none }
        { next_uuid := 1,
          products_db := ⟨[{ id := uuid4 0, name := "N", description := "D.",
                             search_type := "EAN", search_term := "1",
                             created_at := "t" }]⟩ }
      = (Except.error ⟨400, "Veuillez fournir un code EAN ou une référence SKU."⟩,
         { next_uuid := 1,
           products_db := ⟨[{ id := uuid4 0, name := "N", description := "D.",
                              search_type := "EAN", search_term := "1",
                              created_at := "t" }]⟩ }) :=
  claim_C2 (fun _ => {}) (fun _ => {}) (fun t => some t) "2024-01-01T00:00:00"
    { ean := some "", sku := none } _ (by decide) (by decide)

/-- Claim C3: exporting an existing product yields the semicolon-delimited
table made of the always-emitted header line followed by exactly one data
line whose 8 columns are, in order, the product's Name, Price, Description,
Reference (SKU), EAN, Category, ImageURL and Brand, with `""` substituted
for each absent optional field. -/
theorem claim_C3 (s : AppState) (pid : String) (p : Product)
    (h : s.products_db.get_by_id pid = some p) :
    export_prestashop_csv s pid = Except.ok
      { content :=
          csvLine ["Name", "Price", "Description", "Reference", "EAN", "Category",
                   "ImageURL", "Brand"]
            ++ csvLine [p.name, p.price.getD "", p.description, p.sku.getD "",
                        p.ean.getD "", p.category.getD "", p.image.getD "", p.brand.getD ""],
        media_type := "text/csv",
        content_disposition := "attachment; filename=fiche_" ++ p.id ++ ".csv" } := by
  unfold export_prestashop_csv
  rw [h]
  rfl

/-- Witness for C3: exporting a concrete one-product store. -/
theorem claim_C3_witness :
    export_prestashop_csv { next_uuid := 1, products_db := ⟨[sample_product]⟩ } (uuid4 0)
      = Except.ok
        { content :=
            csvLine ["Name", "Price", "Description", "Reference", "EAN", "Category",
                     "ImageURL", "Brand"]
              ++ csvLine [sample_product.name, sample_product.price.getD "",
                          sample_product.description, sample_product.sku.getD "",
                          sample_product.ean.getD "", sample_product.category.getD "",
                          sample_product.image.getD "", sample_product.brand.getD ""],
          media_type := "text/csv",
          content_disposition := "attachment; filename=fiche_" ++ sample_product.id ++ ".csv" } :=
  claim_C3 { next_uuid := 1, products_db := ⟨[sample_product]⟩ } (uuid4 0) sample_product
    (by decide)

/-- Claim C4: `GET /api/export/{id}` fails, and fails specifically with a 404,
exactly when no product in the store has identifier `id`; when one does, the
export succeeds and returns a `text/csv` attachment named after the product. -/
theorem claim_C4 (s : AppState) (pid : String) :
    (s.products_db.get_by_id pid = none →
      export_prestashop_csv s pid = Except.error ⟨404, "Produit non trouvé"⟩) ∧
    (∀ e, export_prestashop_csv s pid = Except.error e →
      s.products_db.get_by_id pid = none ∧ e = ⟨404, "Produit non trouvé"⟩) ∧
    (∀ p, s.products_db.get_by_id pid = some p →
      ∃ r, export_prestashop_csv s pid = Except.ok r ∧
        r.media_type = "text/csv" ∧
        r.content_disposition = "attachment; filename=fiche_" ++ p.id ++ ".csv") := by
  refine ⟨?_, ?_, ?_⟩
  · intro h
    unfold export_prestashop_csv
    rw [h]
  · intro e he
    unfold export_prestashop_csv at he
    cases hg : s.products_db.get_by_id pid with
    | none =>
      rw [hg] at he
      simp only [Except.error.injEq] at he
      exact ⟨rfl, he.symm⟩
    | some p =>
      rw [hg] at he
      simp at he
  · intro p h
    unfold export_prestashop_csv
    rw [h]
    exact ⟨_, rfl, rfl, rfl⟩

/-- Witness for C4: an unknown identifier on the empty store is a 404. -/
theorem claim_C4_witness :
    export_prestashop_csv {} "no-such-id" = Except.error ⟨404, "Produit non trouvé"⟩ :=
  (claim_C4 {} "no-such-id").1 rfl

/-- Claim C5: translation failures never escape the description generator:
its output is the same as with the total translator that maps every string a
translation attempt failed on to that very string. In particular a failed
per-feature translation contributes the original feature text and a failed
whole-description translation contributes the original English text, and
generation always produces a result. -/
theorem claim_C5 (tr : String → Option String) (name : String)
    (brand category : Option String) (features : Option (List String))
    (english_desc : Option String) :
    generate_french_description tr name brand category features english_desc
      = generate_french_description (fun t => some ((tr t).getD t))
          name brand category features english_desc := by
  simp only [generate_french_description, Option.getD_some]

/-- Claim C6 counterexample: for the empty name the code emits no opening
sentence at all, so the output is just "." — not the generic fallback
opening "Découvrez ." that the claim's unconditional opening sentence would
require. -/
theorem claim_C6_counterexample :
    generate_french_description (fun t => some t) "" none none none none = "." ∧
    generate_french_description (fun t => some t) "" none none none none ≠ "Découvrez ." := by
  constructor <;> decide

/-- Claim C6 (amended: the opening sentence is emitted only when the name is
non-empty): the generated description is exactly the spec's sentence
sequence — opening (brand form or name-only form) when the name is
non-empty, category-classifying sentence (category lower-cased) when
category is present, the features sentence when features are present, then
the translated-or-original English description when present — joined with
single spaces, with a final period appended exactly when the concatenation
does not already end with one. -/
theorem claim_C6_amended (tr : String → Option String) (name : String)
    (brand category : Option String) (features : Option (List String))
    (english_desc : Option String) :
    generate_french_description tr name brand category features english_desc
      = spec_description tr name brand category features english_desc := by
  simp only [generate_french_description, spec_description, ensure_dot, foldl_push_eq_map]
  cases hn : name.isEmpty <;> cases hb : pyTruthy brand <;> cases hc : pyTruthy category <;>
    cases hf : pyTruthyList features <;> cases he : pyTruthy english_desc <;>
    simp [hn, hb, hc, hf, he]

/-- Claim C7: starting from the empty store, a batch of N valid (hence
successful) searches leaves `get_all()` returning exactly the N created
products, in creation order. -/
theorem claim_C7 (eanFn skuFn : String → LookupData) (tr : String → Option String)
    (calls : List SearchCall)
    (hvalid : ∀ c ∈ calls, pyTruthy c.payload.ean = true ∨ pyTruthy c.payload.sku = true) :
    (run_searches eanFn skuFn tr calls {}).1.products_db.get_all
        = (run_searches eanFn skuFn tr calls {}).2
      ∧ (run_searches eanFn skuFn tr calls {}).2.length = calls.length := by
  obtain ⟨h1, h2⟩ := run_searches_spec eanFn skuFn tr calls {} hvalid
  refine ⟨?_, h2⟩
  rw [ProductDatabase.get_all, h1]
  rfl

/-- Witness for C7: two concrete searches against the empty store. -/
theorem claim_C7_witness :
    (run_searches (fun _ => {}) (fun _ => {}) (fun t => some t)
        [⟨{ ean := some "3017620422003", sku := none }, "t1"⟩,
         ⟨{ ean := none, sku := some "REF-1" }, "t2"⟩] {}).1.products_db.get_all
        = (run_searches (fun _ => {}) (fun _ => {}) (fun t => some t)
            [⟨{ ean := some "3017620422003", sku := none }, "t1"⟩,
             ⟨{ ean := none, sku := some "REF-1" }, "t2"⟩] {}).2
      ∧ (run_searches (fun _ => {}) (fun _ => {}) (fun t => some t)
          [⟨{ ean := some "3017620422003", sku := none }, "t1"⟩,
           ⟨{ ean := none, sku := some "REF-1" }, "t2"⟩] {}).2.length
        = [⟨({ ean := some "3017620422003", sku := none } : SearchRequest), "t1"⟩,
           (⟨{ ean := none, sku := some "REF-1" }, "t2"⟩ : SearchCall)].length :=
  claim_C7 (fun _ => {}) (fun _ => {}) (fun t => some t)
    [⟨{ ean := some "3017620422003", sku := none }, "t1"⟩,
     ⟨{ ean := none, sku := some "REF-1" }, "t2"⟩]
    (by decide)

/-- Claim C8: with the base URL or the API key unset (or empty), the
PrestaShop export fails with the configuration `RuntimeError` — an error
kind distinct from the network `HTTPException` constructor — and the list of
attempted network requests is empty: no call precedes the check. -/
theorem claim_C8 (cfg : PrestaConfig) (post : PostRequest → Except String HttpResponse)
    (product : Product)
    (h : pyTruthy cfg.PRESTASHOP_BASE_URL = false ∨ pyTruthy cfg.PRESTASHOP_API_KEY = false) :
    create_product_in_prestashop cfg post product
      = (Except.error (.runtimeError
          "PRESTASHOP_BASE_URL et PRESTASHOP_API_KEY doivent être définis pour créer un produit dans PrestaShop."),
         []) := by
  unfold create_product_in_prestashop
  rw [if_pos (by rcases h with h | h <;> simp [h])]

/-- Witness for C8: a missing base URL with a present API key. -/
theorem claim_C8_witness :
    create_product_in_prestashop ⟨none, some "KEY"⟩ (fun _ => Except.error "boom") sample_product
      = (Except.error (.runtimeError
          "PRESTASHOP_BASE_URL et PRESTASHOP_API_KEY doivent être définis pour créer un produit dans PrestaShop."),
         []) :=
  claim_C8 ⟨none, some "KEY"⟩ (fun _ => Except.error "boom") sample_product
    (Or.inl (by decide))

/-- Claim C9 counterexample: with configuration present and the remote
answering 404, the surfaced `HTTPException` carries status 404 — a
client-error status, not a server error as the claim states. -/
theorem claim_C9_counterexample :
    (create_product_in_prestashop cfg_sample post404 sample_product).1
      = Except.error (.httpException 404 "Erreur API PrestaShop: Not Found") ∧
    404 < 500 := by
  constructor
  · rfl
  · decide

/-- Claim C9 (amended: a non-success remote status is surfaced as an error
bearing the remote's own status code, not necessarily a server error): with
configuration present exactly one remote call is made (no retry), a
network-level exception is surfaced as a 500 server error carrying the
underlying cause, and a non-2xx remote status is surfaced as an
`HTTPException` carrying that status and the remote response text. -/
theorem claim_C9_amended (cfg : PrestaConfig)
    (post : PostRequest → Except String HttpResponse) (product : Product)
    (hb : pyTruthy cfg.PRESTASHOP_BASE_URL = true)
    (hk : pyTruthy cfg.PRESTASHOP_API_KEY = true) :
    (create_product_in_prestashop cfg post product).2
        = [⟨cfg.PRESTASHOP_BASE_URL.getD "" ++ "/api/products", product_xml product,
            cfg.PRESTASHOP_API_KEY.getD ""⟩] ∧
    (∀ exc, post ⟨cfg.PRESTASHOP_BASE_URL.getD "" ++ "/api/products", product_xml product,
            cfg.PRESTASHOP_API_KEY.getD ""⟩ = Except.error exc →
      (create_product_in_prestashop cfg post product).1
        = Except.error (.httpException 500 ("Erreur lors de l'appel à PrestaShop : " ++ exc))) ∧
    (∀ r, post ⟨cfg.PRESTASHOP_BASE_URL.getD "" ++ "/api/products", product_xml product,
            cfg.PRESTASHOP_API_KEY.getD ""⟩ = Except.ok r →
      ¬(200 ≤ r.status_code ∧ r.status_code < 300) →
      (create_product_in_prestashop cfg post product).1
        = Except.error (.httpException r.status_code ("Erreur API PrestaShop: " ++ r.text))) := by
  cases hpost : post ⟨cfg.PRESTASHOP_BASE_URL.getD "" ++ "/api/products", product_xml product,
      cfg.PRESTASHOP_API_KEY.getD ""⟩ with
  | error exc =>
    have e := create_product_cfg_error cfg post product (by simp [hb, hk]) exc hpost
    refine ⟨?_, ?_, ?_⟩
    · rw [e]
    · intro e2 he
      injection he with he2
      subst he2
      rw [e]
    · intro r hr
      simp at hr
  | ok response =>
    have e := create_product_cfg_status cfg post product (by simp [hb, hk]) response hpost
    refine ⟨?_, ?_, ?_⟩
    · rw [e]
      cases response.status_code == 200 || response.status_code == 201 <;> rfl
    · intro e2 he
      simp at he
    · intro r hr h2xx
      injection hr with hr2
      subst hr2
      rw [e]
      have hcode : (response.status_code == 200 || response.status_code == 201) = false := by
        have h1 : response.status_code ≠ 200 := by
          intro he
          exact h2xx ⟨by omega, by omega⟩
        have h2 : response.status_code ≠ 201 := by
          intro he
          exact h2xx ⟨by omega, by omega⟩
        simp [h1, h2]
      rw [hcode]
      rfl

/-- Witness for C9 (amended): configuration present, remote answering 404. -/
theorem claim_C9_witness :
    (create_product_in_prestashop cfg_sample post404 sample_product).2
        = [⟨cfg_sample.PRESTASHOP_BASE_URL.getD "" ++ "/api/products",
            product_xml sample_product, cfg_sample.PRESTASHOP_API_KEY.getD ""⟩] ∧
    (∀ exc, post404 ⟨cfg_sample.PRESTASHOP_BASE_URL.getD "" ++ "/api/products",
          product_xml sample_product, cfg_sample.PRESTASHOP_API_KEY.getD ""⟩
        = Except.error exc →
      (create_product_in_prestashop cfg_sample post404 sample_product).1
        = Except.error (.httpException 500 ("Erreur lors de l'appel à PrestaShop : " ++ exc))) ∧
    (∀ r, post404 ⟨cfg_sample.PRESTASHOP_BASE_URL.getD "" ++ "/api/products",
          product_xml sample_product, cfg_sample.PRESTASHOP_API_KEY.getD ""⟩
        = Except.ok r →
      ¬(200 ≤ r.status_code ∧ r.status_code < 300) →
      (create_product_in_prestashop cfg_sample post404 sample_product).1
        = Except.error (.httpException r.status_code ("Erreur API PrestaShop: " ++ r.text))) :=
  claim_C9_amended cfg_sample post404 sample_product (by decide) (by decide)

/-- Claim C10: when both `ean` and `sku` are supplied (truthy), lookup goes
through the EAN function only — the result equals the EAN lookup and is
independent of the SKU lookup function — and a successful search stores the
supplied EAN as the product's `search_term`. -/
theorem claim_C10 (eanFn skuFn skuFn2 : String → LookupData) (tr : String → Option String)
    (now : String) (payload : SearchRequest) (s : AppState)
    (hean : pyTruthy payload.ean = true) (hsku : pyTruthy payload.sku = true) :
    perform_product_lookup eanFn skuFn payload = eanFn (payload.ean.getD "") ∧
    perform_product_lookup eanFn skuFn payload = perform_product_lookup eanFn skuFn2 payload ∧
    ∀ p s', search_product eanFn skuFn tr now payload s = (Except.ok p, s') →
      p.search_term = payload.ean.getD "" := by
  have h1 : perform_product_lookup eanFn skuFn payload = eanFn (payload.ean.getD "") := by
    unfold perform_product_lookup
    rw [if_pos hean]
  refine ⟨h1, ?_, ?_⟩
  · rw [h1]
    unfold perform_product_lookup
    rw [if_pos hean]
  · intro p s' hps
    have hcond : (!pyTruthy payload.ean && !pyTruthy payload.sku) = false := by simp [hean]
    rw [search_product_valid_eq eanFn skuFn tr now payload s hcond] at hps
    have hp : build_product eanFn skuFn tr now payload s.next_uuid = p := by
      have := congrArg Prod.fst hps
      simpa using this
    rw [← hp]
    simp [build_product, hean]

/-- Witness for C10: both codes supplied; two observably different SKU
lookup functions. -/
theorem claim_C10_witness :
    perform_product_lookup (fun _ => { name := some "E" }) (fun _ => {})
        { ean := some "3017620422003", sku := some "REF-1" }
      = (fun _ => ({ name := some "E" } : LookupData)) ((some "3017620422003").getD "") ∧
    perform_product_lookup (fun _ => { name := some "E" }) (fun _ => {})
        { ean := some "3017620422003", sku := some "REF-1" }
      = perform_product_lookup (fun _ => { name := some "E" }) (fun _ => { name := some "S" })
          { ean := some "3017620422003", sku := some "REF-1" } ∧
    ∀ p s', search_product (fun _ => { name := some "E" }) (fun _ => {}) (fun t => some t) "t1"
        { ean := some "3017620422003", sku := some "REF-1" } {} = (Except.ok p, s') →
      p.search_term = (some "3017620422003").getD "" :=
  claim_C10 (fun _ => { name := some "E" }) (fun _ => {}) (fun _ => { name := some "S" })
    (fun t => some t) "t1" { ean := some "3017620422003", sku := some "REF-1" } {}
    (by decide) (by decide)
